import Mathlib

/-!
Shallow embedding of the llm-patent-fallback pipeline
(src/config.py, src/title_verification.py, src/main.py).

Strings are modelled as `List Char`; machine floats produced by
`difflib.SequenceMatcher.ratio` are modelled as exact rationals
(the quantities involved are small integer fractions, so the
float comparisons in the source agree with the rational ones);
fallible stages are modelled with `Option`/`Except`.
-/

namespace PatentPipeline

/-! ## Config (src/config.py) -/

/-- `Config.SIMILARITY_THRESHOLD = 0.8` from src/config.py. -/
def Config.SIMILARITY_THRESHOLD : ℚ := 8 / 10

/-- `Config.MAX_RETRIES = 3` from src/config.py. -/
def Config.MAX_RETRIES : Nat := 3

/-- `Config.RESULTS_DIR = "results"` from src/config.py. -/
def Config.RESULTS_DIR : List Char := "results".data

/-! ## Python string primitives used by the source -/

/-- Python `str.strip()` (no arguments): drop whitespace from both ends. -/
def pyStrip (s : List Char) : List Char :=
  ((s.dropWhile Char.isWhitespace).reverse.dropWhile Char.isWhitespace).reverse

/-- Python `str.rstrip()` (no arguments): drop whitespace from the right end. -/
def pyRstrip (s : List Char) : List Char :=
  (s.reverse.dropWhile Char.isWhitespace).reverse

/-- Python `s.lower()` modelled character-wise (ASCII case mapping). -/
def pyLower (s : List Char) : List Char :=
  s.map Char.toLower

/-- Python `s.split(sep)[0]` for a non-empty separator: the part of `s`
before the first occurrence of `sep` (all of `s` when `sep` is absent). -/
def splitHead (sep : List Char) : List Char → List Char
  | [] => []
  | c :: rest => if sep.isPrefixOf (c :: rest) then [] else c :: splitHead sep rest

/-- Worker for `removeAll`, with fuel bounding the number of consumed
characters (one per step, so `s.length` is always enough). -/
def removeAllAux (pat : List Char) : Nat → List Char → List Char
  | 0, s => s
  | _, [] => []
  | fuel + 1, c :: rest =>
    if pat.isPrefixOf (c :: rest) ∧ pat ≠ [] then
      removeAllAux pat fuel ((c :: rest).drop pat.length)
    else c :: removeAllAux pat fuel rest

/-- Python `s.replace(pat, "")` for a non-empty `pat`: delete every
non-overlapping occurrence of `pat`, scanning left to right. -/
def removeAll (pat s : List Char) : List Char :=
  removeAllAux pat s.length s

/-! ## Data model (records handled by src/title_verification.py) -/

/-- A candidate patent as returned by the OpenAI search stage:
`{patent_id, title, relevancy}`. -/
structure Candidate where
  patent_id : List Char
  title : List Char
  relevancy : List Char
deriving DecidableEq, Repr

/-- A verified patent record as built by `TitleVerifier.verify_patents`. -/
structure VerifiedPatent where
  patent_id : List Char
  title : List Char
  relevancy : List Char
  similarity_score : ℚ
  verified : Bool
  language_note : Option (List Char)
deriving DecidableEq, Repr

/-- The per-compound JSON result file:
`{"compound": ..., "verified_patents": [...]}`. -/
structure ResultFile where
  compound : List Char
  verified_patents : List VerifiedPatent
deriving DecidableEq, Repr

/-- The patent ids currently stored in a result file, in file order. -/
def resultIds (f : ResultFile) : List (List Char) :=
  f.verified_patents.map VerifiedPatent.patent_id

/-! ## Title heuristics (`TitleVerifier._is_valid_title`) -/

/-- `TitleVerifier._is_valid_title` from src/title_verification.py:
reject empty text, text whose lowercasing starts with "abstract",
text longer than 300 characters, and text with more than 2 sentence
terminators; accept otherwise. -/
def isValidTitle (t : List Char) : Bool :=
  if t.isEmpty then false
  else if ("abstract".data).isPrefixOf (pyLower t) then false
  else if 300 < t.length then false
  else if 2 < t.count '.' + t.count '!' + t.count '?' then false
  else true

/-! ## Non-English script detection (`TitleVerifier._contains_non_english`) -/

/-- `TitleVerifier._contains_non_english` from src/title_verification.py:
true when some character falls in the CJK ideograph, kana, or Hangul
ranges checked by the source. -/
def containsNonEnglish (t : List Char) : Bool :=
  t.any fun c =>
    (0x4e00 ≤ c.toNat && c.toNat ≤ 0x9fff) ||
    (0x3040 ≤ c.toNat && c.toNat ≤ 0x30ff) ||
    (0xac00 ≤ c.toNat && c.toNat ≤ 0xd7af)

/-! ## difflib.SequenceMatcher (CPython), as used by
`TitleVerifier._calculate_similarity` with `isjunk=None`, `autojunk=True`.
With `isjunk=None` the junk set `bjunk` is empty, so the junk-extension
loops of `find_longest_match` never fire; `autojunk` only purges popular
elements from the `b2j` index. -/

/-- The positions (in increasing order) at which `c` occurs in `b`:
the `b2j` index of `SequenceMatcher.__chain_b` before the autojunk purge. -/
def charPositions (b : List Char) (c : Char) : List Nat :=
  (b.enum.filter fun p => p.2 == c).map Prod.fst

/-- The `b2j` index after the autojunk purge: when `len(b) >= 200`,
elements occurring more than `len(b)//100 + 1` times are dropped. -/
def b2j (b : List Char) (c : Char) : List Nat :=
  let js := charPositions b c
  if 200 ≤ b.length ∧ b.length / 100 + 1 < js.length then [] else js

/-- A candidate longest match `(besti, bestj, bestsize)`. -/
structure Best where
  i : Nat
  j : Nat
  size : Nat
deriving DecidableEq, Repr

/-- One `j`-iteration of the inner loop of `find_longest_match`:
`k = j2len.get(j-1, 0) + 1` (reading the previous row), record `k` at `j`
in the new row, and take the match ending at `(i, j)` when it beats the
current best strictly (Python keeps the first best on ties). -/
def flmRowStep (j2len : Nat → Nat) (blo bhi i : Nat)
    (st : (Nat → Nat) × Best) (j : Nat) : (Nat → Nat) × Best :=
  if blo ≤ j ∧ j < bhi then
    let k := (if j = 0 then 0 else j2len (j - 1)) + 1
    let row := fun j2 => if j2 = j then k else st.1 j2
    if st.2.size < k then (row, ⟨i + 1 - k, j + 1 - k, k⟩) else (row, st.2)
  else st

/-- The doubly nested loop of `find_longest_match`: for each row `i`,
fold `flmRowStep` over the occurrence list of `a[i]`, starting each row
from an empty `j2len` dictionary (modelled as the constant-0 function). -/
def flmLoop (a b : List Char) (blo bhi : Nat) (rows : List Nat)
    (init : Best) : Best :=
  (rows.foldl
    (fun acc i =>
      (b2j b (a.getD i 'a')).foldl (flmRowStep acc.1 blo bhi i)
        ((fun _ => 0), acc.2))
    ((fun _ => 0), init)).2

/-- The backward extension loop of `find_longest_match` (the junk set is
empty, so the only condition is equality of the preceding characters
within bounds). Structural recursion on `besti`. -/
def extendBack (a b : List Char) (alo blo : Nat) :
    Nat → Nat → Nat → Best
  | 0, j, size => ⟨0, j, size⟩
  | i + 1, j, size =>
    if alo < i + 1 ∧ blo < j ∧ a.getD i 'a' = b.getD (j - 1) 'a' then
      extendBack a b alo blo i (j - 1) (size + 1)
    else ⟨i + 1, j, size⟩

/-- The forward extension loop of `find_longest_match`; fuel bounds the
number of extension steps (each needs `i + size < ahi`, so `ahi` is
always enough). -/
def extendFwd (a b : List Char) (ahi bhi i j : Nat) :
    Nat → Nat → Nat
  | 0, size => size
  | fuel + 1, size =>
    if i + size < ahi ∧ j + size < bhi ∧
        a.getD (i + size) 'a' = b.getD (j + size) 'a' then
      extendFwd a b ahi bhi i j fuel (size + 1)
    else size

/-- `SequenceMatcher.find_longest_match(alo, ahi, blo, bhi)` with an
empty junk set. -/
def findLongestMatch (a b : List Char) (alo ahi blo bhi : Nat) : Best :=
  let b0 := flmLoop a b blo bhi (List.range' alo (ahi - alo)) ⟨alo, blo, 0⟩
  let b1 := extendBack a b alo blo b0.i b0.j b0.size
  ⟨b1.i, b1.j, extendFwd a b ahi bhi b1.i b1.j ahi b1.size⟩

/-- Total matched length over the `get_matching_blocks` recursion tree
(the queue order and the adjacent-block collapse do not change this sum).
Fuel bounds the recursion depth: every recursive call strictly shrinks
`(ahi - alo) + (bhi - blo)`, so `a.length + b.length + 1` is enough at
the top-level call. -/
def matchTotalAux (a b : List Char) : Nat → Nat → Nat → Nat → Nat → Nat
  | 0, _, _, _, _ => 0
  | fuel + 1, alo, ahi, blo, bhi =>
    let m := findLongestMatch a b alo ahi blo bhi
    if m.size = 0 then 0
    else
      m.size
      + (if alo < m.i ∧ blo < m.j then
          matchTotalAux a b fuel alo m.i blo m.j else 0)
      + (if m.i + m.size < ahi ∧ m.j + m.size < bhi then
          matchTotalAux a b fuel (m.i + m.size) ahi (m.j + m.size) bhi else 0)

/-- Sum of the sizes of the matching blocks of `SequenceMatcher(None, a, b)`. -/
def matchTotal (a b : List Char) : Nat :=
  matchTotalAux a b (a.length + b.length + 1) 0 a.length 0 b.length

/-- `difflib._calculate_ratio(matches, length)`:
`2.0 * matches / length` when `length` is nonzero, else `1.0`. -/
def matchScore (m len : Nat) : ℚ :=
  if len = 0 then 1 else 2 * (m : ℚ) / (len : ℚ)

/-- The normalization applied by `TitleVerifier._calculate_similarity`
to each argument: `title.lower().strip()`. -/
def normTitle (t : List Char) : List Char :=
  pyStrip (pyLower t)

/-- `TitleVerifier._calculate_similarity`: normalize both titles and take
`SequenceMatcher(None, a, b).ratio()`. -/
def calculateSimilarity (t1 t2 : List Char) : ℚ :=
  matchScore (matchTotal (normTitle t1) (normTitle t2))
    ((normTitle t1).length + (normTitle t2).length)

/-! ## Result store (`TitleVerifier._save_verified_patent`)
The file read/parse/write is abstracted into a state transformation on
the decoded `ResultFile`. -/

/-- Core of `TitleVerifier._save_verified_patent`: if the record's
patent_id is already among the stored ids, do nothing; otherwise append
the record (the file is then rewritten). -/
def saveVerifiedPatent (f : ResultFile) (p : VerifiedPatent) : ResultFile :=
  if p.patent_id ∈ resultIds f then f
  else { f with verified_patents := f.verified_patents ++ [p] }

/-! ## HTML title extraction (`TitleVerifier._get_patent_title`, parse part) -/

/-- The text content of the two elements `_get_patent_title` looks for on
a successfully fetched page: the `span[itemprop=title]` element and the
`h1[itemprop=pageTitle]` element, each as returned by
`get_text(strip=True)`, or `none` when the element is absent. -/
structure Page where
  spanTitle : Option (List Char)
  h1Title : Option (List Char)
deriving DecidableEq, Repr

/-- Boilerplate cleanup applied to the `h1` text:
`full.split(' - Google Patents')[0].replace(pid + " - ", "").strip()`. -/
def cleanupH1 (pid full : List Char) : List Char :=
  pyStrip (removeAll (pid ++ " - ".data) (splitHead " - Google Patents".data full))

/-- The `span[itemprop=title]` branch: return its text when present and
plausible, otherwise nothing (the source then falls through). -/
def extractSpanTitle (page : Page) : Option (List Char) :=
  match page.spanTitle with
  | some t => if isValidTitle t then some t else none
  | none => none

/-- The `h1[itemprop=pageTitle]` fallback branch: clean up the heading
text and return it when plausible. -/
def extractH1Title (pid : List Char) (page : Page) : Option (List Char) :=
  match page.h1Title with
  | some full =>
    if isValidTitle (cleanupH1 pid full) then some (cleanupH1 pid full) else none
  | none => none

/-- Title extraction from a fetched page, in source order: the span
branch first; when it yields nothing, the h1 fallback; else `None`. -/
def parseTitle (pid : List Char) (page : Page) : Option (List Char) :=
  match extractSpanTitle page with
  | some t => some t
  | none => extractH1Title pid page

/-! ## Fetch loop (`TitleVerifier._get_patent_title`, retry part) -/

/-- Outcome of one HTTP GET attempt, as distinguished by the source's
handlers: a parsed page, an HTTP 404, another HTTP error, or any other
exception. -/
inductive FetchOutcome where
  | ok : Page → FetchOutcome
  | notFound404 : FetchOutcome
  | httpError : FetchOutcome
  | exn : FetchOutcome
deriving DecidableEq, Repr

/-- Observable result of `_get_patent_title`: the returned value, the
number of HTTP requests issued, and the number of `time.sleep(1)` retry
waits performed. -/
structure FetchTrace where
  result : Option (List Char)
  requests : Nat
  retryWaits : Nat
deriving DecidableEq, Repr

/-- The `for attempt in range(MAX_RETRIES)` loop of `_get_patent_title`,
driven by an oracle giving each attempt's outcome and iterating over the
remaining attempt indices. On a fetched page the parse result is
returned as is (also when it is `None`); on 404 the function returns
`None` at once; on any other error the loop sleeps one unit (only when
`attempt < MAX_RETRIES - 1`) and retries; when the attempt list is
exhausted it returns `None`. -/
def getTitleLoop (pid : List Char) (responses : Nat → FetchOutcome) :
    List Nat → Nat → Nat → FetchTrace
  | [], gets, waits => ⟨none, gets, waits⟩
  | attempt :: rest, gets, waits =>
    match responses attempt with
    | .ok page => ⟨parseTitle pid page, gets + 1, waits⟩
    | .notFound404 => ⟨none, gets + 1, waits⟩
    | .httpError =>
      if attempt < Config.MAX_RETRIES - 1 then
        getTitleLoop pid responses rest (gets + 1) (waits + 1)
      else getTitleLoop pid responses rest (gets + 1) waits
    | .exn =>
      if attempt < Config.MAX_RETRIES - 1 then
        getTitleLoop pid responses rest (gets + 1) (waits + 1)
      else getTitleLoop pid responses rest (gets + 1) waits

/-- `TitleVerifier._get_patent_title(patent_id)` under an oracle for the
per-attempt network outcomes. -/
def getPatentTitle (pid : List Char) (responses : Nat → FetchOutcome) : FetchTrace :=
  getTitleLoop pid responses (List.range Config.MAX_RETRIES) 0 0

/-! ## Orchestration (`TitleVerifier.verify_patents`) -/

/-- The record built by `verify_patents` for a candidate whose actual
title was fetched: actual title, exact similarity, `verified` iff the
similarity meets the threshold, and a language note for non-English
titles. -/
def mkVerifiedPatent (p : Candidate) (actual : List Char) : VerifiedPatent :=
  { patent_id := p.patent_id
    title := actual
    relevancy := p.relevancy
    similarity_score := calculateSimilarity p.title actual
    verified := decide (Config.SIMILARITY_THRESHOLD ≤ calculateSimilarity p.title actual)
    language_note :=
      if containsNonEnglish actual then
        some "Non-English title - similarity may be affected by language".data
      else none }

/-- One iteration of the `verify_patents` loop: skip the candidate when
the title fetch failed; otherwise build the record, append it to the
in-memory list, and save it through the store. -/
def verifyStep (fetch : List Char → Option (List Char))
    (acc : List VerifiedPatent × ResultFile) (p : Candidate) :
    List VerifiedPatent × ResultFile :=
  match fetch p.patent_id with
  | none => acc
  | some actual =>
    (acc.1 ++ [mkVerifiedPatent p actual],
     saveVerifiedPatent acc.2 (mkVerifiedPatent p actual))

/-- `TitleVerifier.verify_patents` under a title-fetch oracle keyed by
patent id: returns the in-memory verified list and the final state of
the compound's result file. -/
def verifyPatents (fetch : List Char → Option (List Char))
    (patents : List Candidate) (file0 : ResultFile) :
    List VerifiedPatent × ResultFile :=
  patents.foldl (verifyStep fetch) ([], file0)

/-! ## Top level (`run_patent_search` in src/main.py) -/

/-- The dictionary returned by `run_patent_search`; keys absent from a
given return path are modelled as `none`. -/
structure RunResult where
  compound : List Char
  patents_found : Nat
  patents_verified : Nat
  verified_patents : List VerifiedPatent
  success : Bool
  message : Option (List Char)
  output_file : Option (List Char)
  error : Option (List Char)
deriving DecidableEq, Repr

/-- The code-point ranges (Unicode 14.0, as in CPython 3.11) of the
characters for which Python's `str.isalnum()` holds: letters, decimal
digits, and the other digit/numeric characters. -/
def alnumRanges : List (Nat × Nat) := [
  (0x30, 0x39), (0x41, 0x5a), (0x61, 0x7a), (0xaa, 0xaa), (0xb2, 0xb3),
  (0xb5, 0xb5), (0xb9, 0xba), (0xbc, 0xbe), (0xc0, 0xd6), (0xd8, 0xf6),
  (0xf8, 0x2c1), (0x2c6, 0x2d1), (0x2e0, 0x2e4), (0x2ec, 0x2ec), (0x2ee, 0x2ee),
  (0x370, 0x374), (0x376, 0x377), (0x37a, 0x37d), (0x37f, 0x37f), (0x386, 0x386),
  (0x388, 0x38a), (0x38c, 0x38c), (0x38e, 0x3a1), (0x3a3, 0x3f5), (0x3f7, 0x481),
  (0x48a, 0x52f), (0x531, 0x556), (0x559, 0x559), (0x560, 0x588), (0x5d0, 0x5ea),
  (0x5ef, 0x5f2), (0x620, 0x64a), (0x660, 0x669), (0x66e, 0x66f), (0x671, 0x6d3),
  (0x6d5, 0x6d5), (0x6e5, 0x6e6), (0x6ee, 0x6fc), (0x6ff, 0x6ff), (0x710, 0x710),
  (0x712, 0x72f), (0x74d, 0x7a5), (0x7b1, 0x7b1), (0x7c0, 0x7ea), (0x7f4, 0x7f5),
  (0x7fa, 0x7fa), (0x800, 0x815), (0x81a, 0x81a), (0x824, 0x824), (0x828, 0x828),
  (0x840, 0x858), (0x860, 0x86a), (0x870, 0x887), (0x889, 0x88e), (0x8a0, 0x8c9),
  (0x904, 0x939), (0x93d, 0x93d), (0x950, 0x950), (0x958, 0x961), (0x966, 0x96f),
  (0x971, 0x980), (0x985, 0x98c), (0x98f, 0x990), (0x993, 0x9a8), (0x9aa, 0x9b0),
  (0x9b2, 0x9b2), (0x9b6, 0x9b9), (0x9bd, 0x9bd), (0x9ce, 0x9ce), (0x9dc, 0x9dd),
  (0x9df, 0x9e1), (0x9e6, 0x9f1), (0x9f4, 0x9f9), (0x9fc, 0x9fc), (0xa05, 0xa0a),
  (0xa0f, 0xa10), (0xa13, 0xa28), (0xa2a, 0xa30), (0xa32, 0xa33), (0xa35, 0xa36),
  (0xa38, 0xa39), (0xa59, 0xa5c), (0xa5e, 0xa5e), (0xa66, 0xa6f), (0xa72, 0xa74),
  (0xa85, 0xa8d), (0xa8f, 0xa91), (0xa93, 0xaa8), (0xaaa, 0xab0), (0xab2, 0xab3),
  (0xab5, 0xab9), (0xabd, 0xabd), (0xad0, 0xad0), (0xae0, 0xae1), (0xae6, 0xaef),
  (0xaf9, 0xaf9), (0xb05, 0xb0c), (0xb0f, 0xb10), (0xb13, 0xb28), (0xb2a, 0xb30),
  (0xb32, 0xb33), (0xb35, 0xb39), (0xb3d, 0xb3d), (0xb5c, 0xb5d), (0xb5f, 0xb61),
  (0xb66, 0xb6f), (0xb71, 0xb77), (0xb83, 0xb83), (0xb85, 0xb8a), (0xb8e, 0xb90),
  (0xb92, 0xb95), (0xb99, 0xb9a), (0xb9c, 0xb9c), (0xb9e, 0xb9f), (0xba3, 0xba4),
  (0xba8, 0xbaa), (0xbae, 0xbb9), (0xbd0, 0xbd0), (0xbe6, 0xbf2), (0xc05, 0xc0c),
  (0xc0e, 0xc10), (0xc12, 0xc28), (0xc2a, 0xc39), (0xc3d, 0xc3d), (0xc58, 0xc5a),
  (0xc5d, 0xc5d), (0xc60, 0xc61), (0xc66, 0xc6f), (0xc78, 0xc7e), (0xc80, 0xc80),
  (0xc85, 0xc8c), (0xc8e, 0xc90), (0xc92, 0xca8), (0xcaa, 0xcb3), (0xcb5, 0xcb9),
  (0xcbd, 0xcbd), (0xcdd, 0xcde), (0xce0, 0xce1), (0xce6, 0xcef), (0xcf1, 0xcf2),
  (0xd04, 0xd0c), (0xd0e, 0xd10), (0xd12, 0xd3a), (0xd3d, 0xd3d), (0xd4e, 0xd4e),
  (0xd54, 0xd56), (0xd58, 0xd61), (0xd66, 0xd78), (0xd7a, 0xd7f), (0xd85, 0xd96),
  (0xd9a, 0xdb1), (0xdb3, 0xdbb), (0xdbd, 0xdbd), (0xdc0, 0xdc6), (0xde6, 0xdef),
  (0xe01, 0xe30), (0xe32, 0xe33), (0xe40, 0xe46), (0xe50, 0xe59), (0xe81, 0xe82),
  (0xe84, 0xe84), (0xe86, 0xe8a), (0xe8c, 0xea3), (0xea5, 0xea5), (0xea7, 0xeb0),
  (0xeb2, 0xeb3), (0xebd, 0xebd), (0xec0, 0xec4), (0xec6, 0xec6), (0xed0, 0xed9),
  (0xedc, 0xedf), (0xf00, 0xf00), (0xf20, 0xf33), (0xf40, 0xf47), (0xf49, 0xf6c),
  (0xf88, 0xf8c), (0x1000, 0x102a), (0x103f, 0x1049), (0x1050, 0x1055), (0x105a, 0x105d),
  (0x1061, 0x1061), (0x1065, 0x1066), (0x106e, 0x1070), (0x1075, 0x1081), (0x108e, 0x108e),
  (0x1090, 0x1099), (0x10a0, 0x10c5), (0x10c7, 0x10c7), (0x10cd, 0x10cd), (0x10d0, 0x10fa),
  (0x10fc, 0x1248), (0x124a, 0x124d), (0x1250, 0x1256), (0x1258, 0x1258), (0x125a, 0x125d),
  (0x1260, 0x1288), (0x128a, 0x128d), (0x1290, 0x12b0), (0x12b2, 0x12b5), (0x12b8, 0x12be),
  (0x12c0, 0x12c0), (0x12c2, 0x12c5), (0x12c8, 0x12d6), (0x12d8, 0x1310), (0x1312, 0x1315),
  (0x1318, 0x135a), (0x1369, 0x137c), (0x1380, 0x138f), (0x13a0, 0x13f5), (0x13f8, 0x13fd),
  (0x1401, 0x166c), (0x166f, 0x167f), (0x1681, 0x169a), (0x16a0, 0x16ea), (0x16ee, 0x16f8),
  (0x1700, 0x1711), (0x171f, 0x1731), (0x1740, 0x1751), (0x1760, 0x176c), (0x176e, 0x1770),
  (0x1780, 0x17b3), (0x17d7, 0x17d7), (0x17dc, 0x17dc), (0x17e0, 0x17e9), (0x17f0, 0x17f9),
  (0x1810, 0x1819), (0x1820, 0x1878), (0x1880, 0x1884), (0x1887, 0x18a8), (0x18aa, 0x18aa),
  (0x18b0, 0x18f5), (0x1900, 0x191e), (0x1946, 0x196d), (0x1970, 0x1974), (0x1980, 0x19ab),
  (0x19b0, 0x19c9), (0x19d0, 0x19da), (0x1a00, 0x1a16), (0x1a20, 0x1a54), (0x1a80, 0x1a89),
  (0x1a90, 0x1a99), (0x1aa7, 0x1aa7), (0x1b05, 0x1b33), (0x1b45, 0x1b4c), (0x1b50, 0x1b59),
  (0x1b83, 0x1ba0), (0x1bae, 0x1be5), (0x1c00, 0x1c23), (0x1c40, 0x1c49), (0x1c4d, 0x1c7d),
  (0x1c80, 0x1c88), (0x1c90, 0x1cba), (0x1cbd, 0x1cbf), (0x1ce9, 0x1cec), (0x1cee, 0x1cf3),
  (0x1cf5, 0x1cf6), (0x1cfa, 0x1cfa), (0x1d00, 0x1dbf), (0x1e00, 0x1f15), (0x1f18, 0x1f1d),
  (0x1f20, 0x1f45), (0x1f48, 0x1f4d), (0x1f50, 0x1f57), (0x1f59, 0x1f59), (0x1f5b, 0x1f5b),
  (0x1f5d, 0x1f5d), (0x1f5f, 0x1f7d), (0x1f80, 0x1fb4), (0x1fb6, 0x1fbc), (0x1fbe, 0x1fbe),
  (0x1fc2, 0x1fc4), (0x1fc6, 0x1fcc), (0x1fd0, 0x1fd3), (0x1fd6, 0x1fdb), (0x1fe0, 0x1fec),
  (0x1ff2, 0x1ff4), (0x1ff6, 0x1ffc), (0x2070, 0x2071), (0x2074, 0x2079), (0x207f, 0x2089),
  (0x2090, 0x209c), (0x2102, 0x2102), (0x2107, 0x2107), (0x210a, 0x2113), (0x2115, 0x2115),
  (0x2119, 0x211d), (0x2124, 0x2124), (0x2126, 0x2126), (0x2128, 0x2128), (0x212a, 0x212d),
  (0x212f, 0x2139), (0x213c, 0x213f), (0x2145, 0x2149), (0x214e, 0x214e), (0x2150, 0x2189),
  (0x2460, 0x249b), (0x24ea, 0x24ff), (0x2776, 0x2793), (0x2c00, 0x2ce4), (0x2ceb, 0x2cee),
  (0x2cf2, 0x2cf3), (0x2cfd, 0x2cfd), (0x2d00, 0x2d25), (0x2d27, 0x2d27), (0x2d2d, 0x2d2d),
  (0x2d30, 0x2d67), (0x2d6f, 0x2d6f), (0x2d80, 0x2d96), (0x2da0, 0x2da6), (0x2da8, 0x2dae),
  (0x2db0, 0x2db6), (0x2db8, 0x2dbe), (0x2dc0, 0x2dc6), (0x2dc8, 0x2dce), (0x2dd0, 0x2dd6),
  (0x2dd8, 0x2dde), (0x2e2f, 0x2e2f), (0x3005, 0x3007), (0x3021, 0x3029), (0x3031, 0x3035),
  (0x3038, 0x303c), (0x3041, 0x3096), (0x309d, 0x309f), (0x30a1, 0x30fa), (0x30fc, 0x30ff),
  (0x3105, 0x312f), (0x3131, 0x318e), (0x3192, 0x3195), (0x31a0, 0x31bf), (0x31f0, 0x31ff),
  (0x3220, 0x3229), (0x3248, 0x324f), (0x3251, 0x325f), (0x3280, 0x3289), (0x32b1, 0x32bf),
  (0x3400, 0x4dbf), (0x4e00, 0xa48c), (0xa4d0, 0xa4fd), (0xa500, 0xa60c), (0xa610, 0xa62b),
  (0xa640, 0xa66e), (0xa67f, 0xa69d), (0xa6a0, 0xa6ef), (0xa717, 0xa71f), (0xa722, 0xa788),
  (0xa78b, 0xa7ca), (0xa7d0, 0xa7d1), (0xa7d3, 0xa7d3), (0xa7d5, 0xa7d9), (0xa7f2, 0xa801),
  (0xa803, 0xa805), (0xa807, 0xa80a), (0xa80c, 0xa822), (0xa830, 0xa835), (0xa840, 0xa873),
  (0xa882, 0xa8b3), (0xa8d0, 0xa8d9), (0xa8f2, 0xa8f7), (0xa8fb, 0xa8fb), (0xa8fd, 0xa8fe),
  (0xa900, 0xa925), (0xa930, 0xa946), (0xa960, 0xa97c), (0xa984, 0xa9b2), (0xa9cf, 0xa9d9),
  (0xa9e0, 0xa9e4), (0xa9e6, 0xa9fe), (0xaa00, 0xaa28), (0xaa40, 0xaa42), (0xaa44, 0xaa4b),
  (0xaa50, 0xaa59), (0xaa60, 0xaa76), (0xaa7a, 0xaa7a), (0xaa7e, 0xaaaf), (0xaab1, 0xaab1),
  (0xaab5, 0xaab6), (0xaab9, 0xaabd), (0xaac0, 0xaac0), (0xaac2, 0xaac2), (0xaadb, 0xaadd),
  (0xaae0, 0xaaea), (0xaaf2, 0xaaf4), (0xab01, 0xab06), (0xab09, 0xab0e), (0xab11, 0xab16),
  (0xab20, 0xab26), (0xab28, 0xab2e), (0xab30, 0xab5a), (0xab5c, 0xab69), (0xab70, 0xabe2),
  (0xabf0, 0xabf9), (0xac00, 0xd7a3), (0xd7b0, 0xd7c6), (0xd7cb, 0xd7fb), (0xf900, 0xfa6d),
  (0xfa70, 0xfad9), (0xfb00, 0xfb06), (0xfb13, 0xfb17), (0xfb1d, 0xfb1d), (0xfb1f, 0xfb28),
  (0xfb2a, 0xfb36), (0xfb38, 0xfb3c), (0xfb3e, 0xfb3e), (0xfb40, 0xfb41), (0xfb43, 0xfb44),
  (0xfb46, 0xfbb1), (0xfbd3, 0xfd3d), (0xfd50, 0xfd8f), (0xfd92, 0xfdc7), (0xfdf0, 0xfdfb),
  (0xfe70, 0xfe74), (0xfe76, 0xfefc), (0xff10, 0xff19), (0xff21, 0xff3a), (0xff41, 0xff5a),
  (0xff66, 0xffbe), (0xffc2, 0xffc7), (0xffca, 0xffcf), (0xffd2, 0xffd7), (0xffda, 0xffdc),
  (0x10000, 0x1000b), (0x1000d, 0x10026), (0x10028, 0x1003a), (0x1003c, 0x1003d), (0x1003f, 0x1004d),
  (0x10050, 0x1005d), (0x10080, 0x100fa), (0x10107, 0x10133), (0x10140, 0x10178), (0x1018a, 0x1018b),
  (0x10280, 0x1029c), (0x102a0, 0x102d0), (0x102e1, 0x102fb), (0x10300, 0x10323), (0x1032d, 0x1034a),
  (0x10350, 0x10375), (0x10380, 0x1039d), (0x103a0, 0x103c3), (0x103c8, 0x103cf), (0x103d1, 0x103d5),
  (0x10400, 0x1049d), (0x104a0, 0x104a9), (0x104b0, 0x104d3), (0x104d8, 0x104fb), (0x10500, 0x10527),
  (0x10530, 0x10563), (0x10570, 0x1057a), (0x1057c, 0x1058a), (0x1058c, 0x10592), (0x10594, 0x10595),
  (0x10597, 0x105a1), (0x105a3, 0x105b1), (0x105b3, 0x105b9), (0x105bb, 0x105bc), (0x10600, 0x10736),
  (0x10740, 0x10755), (0x10760, 0x10767), (0x10780, 0x10785), (0x10787, 0x107b0), (0x107b2, 0x107ba),
  (0x10800, 0x10805), (0x10808, 0x10808), (0x1080a, 0x10835), (0x10837, 0x10838), (0x1083c, 0x1083c),
  (0x1083f, 0x10855), (0x10858, 0x10876), (0x10879, 0x1089e), (0x108a7, 0x108af), (0x108e0, 0x108f2),
  (0x108f4, 0x108f5), (0x108fb, 0x1091b), (0x10920, 0x10939), (0x10980, 0x109b7), (0x109bc, 0x109cf),
  (0x109d2, 0x10a00), (0x10a10, 0x10a13), (0x10a15, 0x10a17), (0x10a19, 0x10a35), (0x10a40, 0x10a48),
  (0x10a60, 0x10a7e), (0x10a80, 0x10a9f), (0x10ac0, 0x10ac7), (0x10ac9, 0x10ae4), (0x10aeb, 0x10aef),
  (0x10b00, 0x10b35), (0x10b40, 0x10b55), (0x10b58, 0x10b72), (0x10b78, 0x10b91), (0x10ba9, 0x10baf),
  (0x10c00, 0x10c48), (0x10c80, 0x10cb2), (0x10cc0, 0x10cf2), (0x10cfa, 0x10d23), (0x10d30, 0x10d39),
  (0x10e60, 0x10e7e), (0x10e80, 0x10ea9), (0x10eb0, 0x10eb1), (0x10f00, 0x10f27), (0x10f30, 0x10f45),
  (0x10f51, 0x10f54), (0x10f70, 0x10f81), (0x10fb0, 0x10fcb), (0x10fe0, 0x10ff6), (0x11003, 0x11037),
  (0x11052, 0x1106f), (0x11071, 0x11072), (0x11075, 0x11075), (0x11083, 0x110af), (0x110d0, 0x110e8),
  (0x110f0, 0x110f9), (0x11103, 0x11126), (0x11136, 0x1113f), (0x11144, 0x11144), (0x11147, 0x11147),
  (0x11150, 0x11172), (0x11176, 0x11176), (0x11183, 0x111b2), (0x111c1, 0x111c4), (0x111d0, 0x111da),
  (0x111dc, 0x111dc), (0x111e1, 0x111f4), (0x11200, 0x11211), (0x11213, 0x1122b), (0x11280, 0x11286),
  (0x11288, 0x11288), (0x1128a, 0x1128d), (0x1128f, 0x1129d), (0x1129f, 0x112a8), (0x112b0, 0x112de),
  (0x112f0, 0x112f9), (0x11305, 0x1130c), (0x1130f, 0x11310), (0x11313, 0x11328), (0x1132a, 0x11330),
  (0x11332, 0x11333), (0x11335, 0x11339), (0x1133d, 0x1133d), (0x11350, 0x11350), (0x1135d, 0x11361),
  (0x11400, 0x11434), (0x11447, 0x1144a), (0x11450, 0x11459), (0x1145f, 0x11461), (0x11480, 0x114af),
  (0x114c4, 0x114c5), (0x114c7, 0x114c7), (0x114d0, 0x114d9), (0x11580, 0x115ae), (0x115d8, 0x115db),
  (0x11600, 0x1162f), (0x11644, 0x11644), (0x11650, 0x11659), (0x11680, 0x116aa), (0x116b8, 0x116b8),
  (0x116c0, 0x116c9), (0x11700, 0x1171a), (0x11730, 0x1173b), (0x11740, 0x11746), (0x11800, 0x1182b),
  (0x118a0, 0x118f2), (0x118ff, 0x11906), (0x11909, 0x11909), (0x1190c, 0x11913), (0x11915, 0x11916),
  (0x11918, 0x1192f), (0x1193f, 0x1193f), (0x11941, 0x11941), (0x11950, 0x11959), (0x119a0, 0x119a7),
  (0x119aa, 0x119d0), (0x119e1, 0x119e1), (0x119e3, 0x119e3), (0x11a00, 0x11a00), (0x11a0b, 0x11a32),
  (0x11a3a, 0x11a3a), (0x11a50, 0x11a50), (0x11a5c, 0x11a89), (0x11a9d, 0x11a9d), (0x11ab0, 0x11af8),
  (0x11c00, 0x11c08), (0x11c0a, 0x11c2e), (0x11c40, 0x11c40), (0x11c50, 0x11c6c), (0x11c72, 0x11c8f),
  (0x11d00, 0x11d06), (0x11d08, 0x11d09), (0x11d0b, 0x11d30), (0x11d46, 0x11d46), (0x11d50, 0x11d59),
  (0x11d60, 0x11d65), (0x11d67, 0x11d68), (0x11d6a, 0x11d89), (0x11d98, 0x11d98), (0x11da0, 0x11da9),
  (0x11ee0, 0x11ef2), (0x11fb0, 0x11fb0), (0x11fc0, 0x11fd4), (0x12000, 0x12399), (0x12400, 0x1246e),
  (0x12480, 0x12543), (0x12f90, 0x12ff0), (0x13000, 0x1342e), (0x14400, 0x14646), (0x16800, 0x16a38),
  (0x16a40, 0x16a5e), (0x16a60, 0x16a69), (0x16a70, 0x16abe), (0x16ac0, 0x16ac9), (0x16ad0, 0x16aed),
  (0x16b00, 0x16b2f), (0x16b40, 0x16b43), (0x16b50, 0x16b59), (0x16b5b, 0x16b61), (0x16b63, 0x16b77),
  (0x16b7d, 0x16b8f), (0x16e40, 0x16e96), (0x16f00, 0x16f4a), (0x16f50, 0x16f50), (0x16f93, 0x16f9f),
  (0x16fe0, 0x16fe1), (0x16fe3, 0x16fe3), (0x17000, 0x187f7), (0x18800, 0x18cd5), (0x18d00, 0x18d08),
  (0x1aff0, 0x1aff3), (0x1aff5, 0x1affb), (0x1affd, 0x1affe), (0x1b000, 0x1b122), (0x1b150, 0x1b152),
  (0x1b164, 0x1b167), (0x1b170, 0x1b2fb), (0x1bc00, 0x1bc6a), (0x1bc70, 0x1bc7c), (0x1bc80, 0x1bc88),
  (0x1bc90, 0x1bc99), (0x1d2e0, 0x1d2f3), (0x1d360, 0x1d378), (0x1d400, 0x1d454), (0x1d456, 0x1d49c),
  (0x1d49e, 0x1d49f), (0x1d4a2, 0x1d4a2), (0x1d4a5, 0x1d4a6), (0x1d4a9, 0x1d4ac), (0x1d4ae, 0x1d4b9),
  (0x1d4bb, 0x1d4bb), (0x1d4bd, 0x1d4c3), (0x1d4c5, 0x1d505), (0x1d507, 0x1d50a), (0x1d50d, 0x1d514),
  (0x1d516, 0x1d51c), (0x1d51e, 0x1d539), (0x1d53b, 0x1d53e), (0x1d540, 0x1d544), (0x1d546, 0x1d546),
  (0x1d54a, 0x1d550), (0x1d552, 0x1d6a5), (0x1d6a8, 0x1d6c0), (0x1d6c2, 0x1d6da), (0x1d6dc, 0x1d6fa),
  (0x1d6fc, 0x1d714), (0x1d716, 0x1d734), (0x1d736, 0x1d74e), (0x1d750, 0x1d76e), (0x1d770, 0x1d788),
  (0x1d78a, 0x1d7a8), (0x1d7aa, 0x1d7c2), (0x1d7c4, 0x1d7cb), (0x1d7ce, 0x1d7ff), (0x1df00, 0x1df1e),
  (0x1e100, 0x1e12c), (0x1e137, 0x1e13d), (0x1e140, 0x1e149), (0x1e14e, 0x1e14e), (0x1e290, 0x1e2ad),
  (0x1e2c0, 0x1e2eb), (0x1e2f0, 0x1e2f9), (0x1e7e0, 0x1e7e6), (0x1e7e8, 0x1e7eb), (0x1e7ed, 0x1e7ee),
  (0x1e7f0, 0x1e7fe), (0x1e800, 0x1e8c4), (0x1e8c7, 0x1e8cf), (0x1e900, 0x1e943), (0x1e94b, 0x1e94b),
  (0x1e950, 0x1e959), (0x1ec71, 0x1ecab), (0x1ecad, 0x1ecaf), (0x1ecb1, 0x1ecb4), (0x1ed01, 0x1ed2d),
  (0x1ed2f, 0x1ed3d), (0x1ee00, 0x1ee03), (0x1ee05, 0x1ee1f), (0x1ee21, 0x1ee22), (0x1ee24, 0x1ee24),
  (0x1ee27, 0x1ee27), (0x1ee29, 0x1ee32), (0x1ee34, 0x1ee37), (0x1ee39, 0x1ee39), (0x1ee3b, 0x1ee3b),
  (0x1ee42, 0x1ee42), (0x1ee47, 0x1ee47), (0x1ee49, 0x1ee49), (0x1ee4b, 0x1ee4b), (0x1ee4d, 0x1ee4f),
  (0x1ee51, 0x1ee52), (0x1ee54, 0x1ee54), (0x1ee57, 0x1ee57), (0x1ee59, 0x1ee59), (0x1ee5b, 0x1ee5b),
  (0x1ee5d, 0x1ee5d), (0x1ee5f, 0x1ee5f), (0x1ee61, 0x1ee62), (0x1ee64, 0x1ee64), (0x1ee67, 0x1ee6a),
  (0x1ee6c, 0x1ee72), (0x1ee74, 0x1ee77), (0x1ee79, 0x1ee7c), (0x1ee7e, 0x1ee7e), (0x1ee80, 0x1ee89),
  (0x1ee8b, 0x1ee9b), (0x1eea1, 0x1eea3), (0x1eea5, 0x1eea9), (0x1eeab, 0x1eebb), (0x1f100, 0x1f10c),
  (0x1fbf0, 0x1fbf9), (0x20000, 0x2a6df), (0x2a700, 0x2b738), (0x2b740, 0x2b81d), (0x2b820, 0x2cea1),
  (0x2ceb0, 0x2ebe0), (0x2f800, 0x2fa1d), (0x30000, 0x3134a)]

/-- Python `str.isalnum()` for one character: membership in the Unicode
alphanumeric code-point ranges. -/
def pyIsAlnum (c : Char) : Bool :=
  alnumRanges.any fun r => r.1 ≤ c.toNat && c.toNat ≤ r.2

/-- The character filter of `Config.get_output_path`: keep alphanumeric
characters, spaces, hyphens and underscores. -/
def keepChar (c : Char) : Bool :=
  pyIsAlnum c || c = ' ' || c = '-' || c = '_'

/-- The sanitized per-compound directory name from
`Config.get_output_path`: filter, right-strip, replace spaces with
underscores. -/
def safeName (compound : List Char) : List Char :=
  (pyRstrip (compound.filter keepChar)).map fun c => if c = ' ' then '_' else c

/-- `Config.get_output_path(compound)`:
`results/<safe_name>/verified_patents.json`. -/
def getOutputPath (compound : List Char) : List Char :=
  Config.RESULTS_DIR ++ "/".data ++ safeName compound ++ "/verified_patents.json".data

/-- The value built by the `except` handler of `run_patent_search`:
zero counts, empty list, `success: false`, the error message. -/
def errorResult (compound e : List Char) : RunResult :=
  { compound := compound
    patents_found := 0
    patents_verified := 0
    verified_patents := []
    success := false
    message := none
    output_file := none
    error := some e }

/-- `run_patent_search(compound)`, with the stages inside the `try`
block modelled as `Except`-valued oracles: configuration validation, the
OpenAI search, and the verification stage (the latter also covers result
assembly). Any stage error is converted by the top-level handler into
`errorResult`. -/
def runPatentSearch (compound : List Char)
    (validateOutcome : Except (List Char) Unit)
    (searchOutcome : Except (List Char) (List Candidate))
    (verifyOutcome : List Candidate → Except (List Char) (List VerifiedPatent)) :
    RunResult :=
  match validateOutcome with
  | .error e => errorResult compound e
  | .ok _ =>
    match searchOutcome with
    | .error e => errorResult compound e
    | .ok patents =>
      if patents.isEmpty then
        { compound := compound
          patents_found := 0
          patents_verified := 0
          verified_patents := []
          success := false
          message := some "No patents found by OpenAI search".data
          output_file := none
          error := none }
      else
        match verifyOutcome patents with
        | .error e => errorResult compound e
        | .ok verified =>
          { compound := compound
            patents_found := patents.length
            patents_verified := verified.length
            verified_patents := verified
            success := true
            message := none
            output_file := some (getOutputPath compound)
            error := none }

/-! ## Theorems -/

/-- C6: the title-plausibility predicate accepts `t` iff `t` is
non-empty, does not start with the word "abstract" in any letter case,
has length at most 300, and contains at most 2 of the characters '.',
'!', '?'; in particular it accepts the plain short title
"Synthesis of 3-(trifluoromethyl)pyridine-4-carboxamide". -/
theorem valid_title_characterization (t : List Char) :
    (isValidTitle t = true ↔
      (t ≠ [] ∧ ¬ ("abstract".data <+: pyLower t) ∧ t.length ≤ 300 ∧
        t.count '.' + t.count '!' + t.count '?' ≤ 2)) ∧
    isValidTitle "Synthesis of 3-(trifluoromethyl)pyridine-4-carboxamide".data = true := by
  constructor
  · unfold isValidTitle
    split_ifs with h1 h2 h3 h4
    · simp [List.isEmpty_iff.mp h1]
    · simp [List.isPrefixOf_iff_prefix.mp h2]
    · constructor
      · intro h; exact h.elim
      · rintro ⟨-, -, hlen, -⟩; omega
    · constructor
      · intro h; exact h.elim
      · rintro ⟨-, -, -, hcnt⟩; omega
    · simp only [true_iff]
      refine ⟨fun he => h1 (by simp [he]), fun hp => h2 (List.isPrefixOf_iff_prefix.mpr hp),
        by omega, by omega⟩
  · decide

/-- C7: the non-English-script predicate is true iff some character of
`t` lies in the CJK ideograph range U+4E00–U+9FFF, the kana range
U+3040–U+30FF, or the Hangul range U+AC00–U+D7AF; in particular every
pure-ASCII string yields false. -/
theorem contains_non_english_characterization (t : List Char) :
    (containsNonEnglish t = true ↔
      ∃ c ∈ t,
        (0x4e00 ≤ c.toNat ∧ c.toNat ≤ 0x9fff) ∨
        (0x3040 ≤ c.toNat ∧ c.toNat ≤ 0x30ff) ∨
        (0xac00 ≤ c.toNat ∧ c.toNat ≤ 0xd7af)) ∧
    ((∀ c ∈ t, c.toNat ≤ 127) → containsNonEnglish t = false) := by
  have main : containsNonEnglish t = true ↔
      ∃ c ∈ t,
        (0x4e00 ≤ c.toNat ∧ c.toNat ≤ 0x9fff) ∨
        (0x3040 ≤ c.toNat ∧ c.toNat ≤ 0x30ff) ∨
        (0xac00 ≤ c.toNat ∧ c.toNat ≤ 0xd7af) := by
    simp [containsNonEnglish, List.any_eq_true, decide_eq_true_iff, or_assoc]
  refine ⟨main, fun hall => ?_⟩
  rw [Bool.eq_false_iff]
  intro htrue
  obtain ⟨c, hc, hr⟩ := main.mp htrue
  have := hall c hc
  omega

/-- Witness for `contains_non_english_characterization` at a concrete
ASCII title. -/
theorem contains_non_english_characterization_app :
    containsNonEnglish "Synthesis of X".data = false :=
  (contains_non_english_characterization "Synthesis of X".data).2 (by decide)

/-- C10: the output path depends on the compound name only through the
characters kept by the sanitization filter, so two names that differ
only in deleted characters share an output path (and hence a result
file). -/
theorem output_path_ignores_deleted_chars (c1 c2 : List Char)
    (h : c1.filter keepChar = c2.filter keepChar) :
    getOutputPath c1 = getOutputPath c2 := by
  unfold getOutputPath safeName
  rw [h]

set_option maxRecDepth 20000 in
/-- Witness for `output_path_ignores_deleted_chars`: the distinct names
"a,b" and "ab" resolve to the same output path; a name differing in a
kept Unicode alphanumeric (the subscript of "H₂O") does not collide
with its stripped variant. -/
theorem output_path_ignores_deleted_chars_app :
    "a,b".data ≠ "ab".data ∧ getOutputPath "a,b".data = getOutputPath "ab".data ∧
    getOutputPath "H₂O".data ≠ getOutputPath "HO".data :=
  ⟨by decide, output_path_ignores_deleted_chars "a,b".data "ab".data (by decide),
    by decide⟩

/-- C4: an HTTP 404 at any attempt returns "not found" at once, with no
further requests and no extra retry wait; non-404 errors and exceptions
retry after a 1-unit wait until the 3-attempt budget is exhausted, after
which "not found" is returned. -/
theorem fetch_404_definitive_other_errors_retry
    (pid : List Char) (responses : Nat → FetchOutcome) (k : Nat) :
    (k < Config.MAX_RETRIES →
      (∀ j, j < k → responses j = .httpError ∨ responses j = .exn) →
      responses k = .notFound404 →
      getPatentTitle pid responses = ⟨none, k + 1, k⟩) ∧
    ((∀ j, j < Config.MAX_RETRIES → responses j = .httpError ∨ responses j = .exn) →
      getPatentTitle pid responses = ⟨none, Config.MAX_RETRIES, Config.MAX_RETRIES - 1⟩) := by
  have hr : List.range Config.MAX_RETRIES = [0, 1, 2] := rfl
  constructor
  · intro hk hfail h404
    rw [show Config.MAX_RETRIES = 3 from rfl] at hk
    interval_cases k
    · simp [getPatentTitle, hr, getTitleLoop, h404]
    · rcases hfail 0 (by omega) with h0 | h0 <;>
        simp [getPatentTitle, hr, getTitleLoop, h0, h404, Config.MAX_RETRIES]
    · rcases hfail 0 (by omega) with h0 | h0 <;>
        rcases hfail 1 (by omega) with h1 | h1 <;>
        simp [getPatentTitle, hr, getTitleLoop, h0, h1, h404, Config.MAX_RETRIES]
  · intro hfail
    rcases hfail 0 (by decide) with h0 | h0 <;>
      rcases hfail 1 (by decide) with h1 | h1 <;>
      rcases hfail 2 (by decide) with h2 | h2 <;>
      simp [getPatentTitle, hr, getTitleLoop, h0, h1, h2, Config.MAX_RETRIES]

/-- Witness for `fetch_404_definitive_other_errors_retry`: one transient
error followed by a 404 yields "not found" after exactly 2 requests and
1 retry wait. -/
theorem fetch_404_definitive_other_errors_retry_app :
    getPatentTitle "US1A".data
        (fun n => if n = 0 then FetchOutcome.httpError else FetchOutcome.notFound404) =
      ⟨none, 2, 1⟩ :=
  (fetch_404_definitive_other_errors_retry "US1A".data
      (fun n => if n = 0 then FetchOutcome.httpError else FetchOutcome.notFound404) 1).1
    (by decide) (fun j hj => by interval_cases j; simp) (by simp)

/-- C3 (amended): when the canonical title field is present on a fetched
page but its text fails the plausibility heuristics, the fetcher falls
back to the page-title heading of the same page; the attempt's outcome
is whatever that fallback yields, returned within the first attempt with
no retry and no retry wait. -/
theorem invalid_span_title_uses_h1_fallback
    (pid : List Char) (responses : Nat → FetchOutcome) (page : Page) (t : List Char)
    (hresp : responses 0 = .ok page) (hspan : page.spanTitle = some t)
    (hinv : isValidTitle t = false) :
    getPatentTitle pid responses = ⟨extractH1Title pid page, 1, 0⟩ := by
  have hr : List.range Config.MAX_RETRIES = [0, 1, 2] := rfl
  simp [getPatentTitle, hr, getTitleLoop, hresp, parseTitle, extractSpanTitle, hspan, hinv]

/-- Witness for `invalid_span_title_uses_h1_fallback` at a page whose
canonical title text is implausible and whose heading is usable. -/
theorem invalid_span_title_uses_h1_fallback_app :
    getPatentTitle "US1A".data
        (fun _ => FetchOutcome.ok
          ⟨some "Abstract. First. Second. Third.".data, some "Recovered title".data⟩) =
      ⟨extractH1Title "US1A".data
          ⟨some "Abstract. First. Second. Third.".data, some "Recovered title".data⟩,
        1, 0⟩ :=
  invalid_span_title_uses_h1_fallback "US1A".data _ _
    "Abstract. First. Second. Third.".data rfl rfl (by decide)

/-- Counterexample to C3 as stated: on a page whose canonical title text
is implausible, `_get_patent_title` does not treat the attempt as "not
found" — it returns the text recovered from the page-title heading of
the same page. -/
theorem invalid_span_title_not_dropped :
    isValidTitle "Abstract. First. Second. Third.".data = false ∧
    (getPatentTitle "US1A".data
        (fun _ => FetchOutcome.ok
          ⟨some "Abstract. First. Second. Third.".data, some "Recovered title".data⟩)).result
      = some "Recovered title".data := by
  constructor
  · decide
  · decide

/-- C8: once the search stage has produced a non-empty candidate list,
an exception escaping the rest of the run makes the top-level handler
return `success: false` with `patents_found` 0, `patents_verified` 0 and
an empty list, regardless of the candidates actually found. -/
theorem error_after_nonempty_search_zeroes_result
    (compound e : List Char) (patents : List Candidate)
    (verifyOutcome : List Candidate → Except (List Char) (List VerifiedPatent))
    (hne : patents ≠ [])
    (hverr : verifyOutcome patents = .error e) :
    runPatentSearch compound (.ok ()) (.ok patents) verifyOutcome =
      { compound := compound
        patents_found := 0
        patents_verified := 0
        verified_patents := []
        success := false
        message := none
        output_file := none
        error := some e } := by
  simp [runPatentSearch, List.isEmpty_iff, hne, hverr, errorResult]

/-- Witness for `error_after_nonempty_search_zeroes_result` with one
candidate found and a failing verification stage. -/
theorem error_after_nonempty_search_zeroes_result_app :
    runPatentSearch "aspirin".data (.ok ())
        (.ok [⟨"US1A".data, "T".data, "High".data⟩])
        (fun _ => .error "boom".data) =
      { compound := "aspirin".data
        patents_found := 0
        patents_verified := 0
        verified_patents := []
        success := false
        message := none
        output_file := none
        error := some "boom".data } :=
  error_after_nonempty_search_zeroes_result "aspirin".data "boom".data
    [⟨"US1A".data, "T".data, "High".data⟩] (fun _ => .error "boom".data)
    (by decide) rfl

/-- Saving rewrites the stored id list only when the id is new. -/
theorem resultIds_save (f : ResultFile) (p : VerifiedPatent) :
    resultIds (saveVerifiedPatent f p) =
      if p.patent_id ∈ resultIds f then resultIds f
      else resultIds f ++ [p.patent_id] := by
  unfold saveVerifiedPatent
  split_ifs with h <;> simp [resultIds]

/-- One save preserves uniqueness of the stored ids. -/
theorem save_keeps_nodup (f : ResultFile) (p : VerifiedPatent)
    (h : (resultIds f).Nodup) :
    (resultIds (saveVerifiedPatent f p)).Nodup := by
  rw [resultIds_save]
  split_ifs with hm
  · exact h
  · simp [List.nodup_append, h, hm]

/-- Any sequence of saves preserves uniqueness of the stored ids. -/
theorem foldl_save_keeps_nodup (ps : List VerifiedPatent) (f : ResultFile)
    (h : (resultIds f).Nodup) :
    (resultIds (ps.foldl saveVerifiedPatent f)).Nodup := by
  induction ps generalizing f with
  | nil => exact h
  | cons q rest ih => exact ih _ (save_keeps_nodup f q h)

/-- Saving records with pairwise-distinct fresh ids appends them all, in
order. -/
theorem foldl_save_appends_fresh (ps : List VerifiedPatent) (f : ResultFile)
    (hnodup : (ps.map VerifiedPatent.patent_id).Nodup)
    (hnew : ∀ q ∈ ps, q.patent_id ∉ resultIds f) :
    (ps.foldl saveVerifiedPatent f).verified_patents = f.verified_patents ++ ps := by
  induction ps generalizing f with
  | nil => simp
  | cons q rest ih =>
    have hq : q.patent_id ∉ resultIds f := hnew q (by simp)
    have hcons : (∀ x ∈ rest, x.patent_id ≠ q.patent_id) ∧
        (rest.map VerifiedPatent.patent_id).Nodup := by
      simpa using hnodup
    have hsave : saveVerifiedPatent f q =
        { f with verified_patents := f.verified_patents ++ [q] } := by
      unfold saveVerifiedPatent
      simp [hq]
    have hrest : ∀ r ∈ rest,
        r.patent_id ∉ resultIds { f with verified_patents := f.verified_patents ++ [q] } := by
      intro r hr hmem
      have hids : resultIds { f with verified_patents := f.verified_patents ++ [q] } =
          resultIds f ++ [q.patent_id] := by
        simp [resultIds]
      rw [hids, List.mem_append, List.mem_singleton] at hmem
      rcases hmem with hmem | hmem
      · exact hnew r (List.mem_cons_of_mem q hr) hmem
      · exact hcons.1 r hr hmem
    rw [List.foldl_cons, hsave, ih _ hcons.2 hrest]
    simp

/-- C1: across any sequence of appends the stored patent_id values stay
unique; appending a record whose id is already present leaves the file
unchanged, and appending records with pairwise-distinct fresh ids stores
one entry per id, in append order. -/
theorem store_ids_stay_unique (f : ResultFile) (p : VerifiedPatent)
    (ps : List VerifiedPatent) :
    (p.patent_id ∈ resultIds f → saveVerifiedPatent f p = f) ∧
    ((resultIds f).Nodup → (resultIds (ps.foldl saveVerifiedPatent f)).Nodup) ∧
    ((ps.map VerifiedPatent.patent_id).Nodup →
      (∀ q ∈ ps, q.patent_id ∉ resultIds f) →
      (ps.foldl saveVerifiedPatent f).verified_patents = f.verified_patents ++ ps) :=
  ⟨fun h => by simp [saveVerifiedPatent, h],
   fun h => foldl_save_keeps_nodup ps f h,
   fun h1 h2 => foldl_save_appends_fresh ps f h1 h2⟩

/-- Witness for `store_ids_stay_unique`: re-saving an id already stored
(with a different title) changes nothing, and two fresh distinct ids are
both appended in order. -/
theorem store_ids_stay_unique_app :
    saveVerifiedPatent ⟨"aspirin".data, [⟨"US1A".data, "T1".data, "High".data, 1, true, none⟩]⟩
        ⟨"US1A".data, "Other".data, "Low".data, 0, false, none⟩ =
      ⟨"aspirin".data, [⟨"US1A".data, "T1".data, "High".data, 1, true, none⟩]⟩ ∧
    (resultIds ([⟨"US2B".data, "T2".data, "Med".data, 1, true, none⟩,
        ⟨"US3C".data, "T3".data, "Low".data, 0, false, none⟩].foldl saveVerifiedPatent
        ⟨"aspirin".data, [⟨"US1A".data, "T1".data, "High".data, 1, true, none⟩]⟩)).Nodup ∧
    ([⟨"US2B".data, "T2".data, "Med".data, 1, true, none⟩,
        ⟨"US3C".data, "T3".data, "Low".data, 0, false, none⟩].foldl saveVerifiedPatent
        ⟨"aspirin".data, [⟨"US1A".data, "T1".data, "High".data, 1, true, none⟩]⟩).verified_patents =
      [⟨"US1A".data, "T1".data, "High".data, 1, true, none⟩] ++
        [⟨"US2B".data, "T2".data, "Med".data, 1, true, none⟩,
         ⟨"US3C".data, "T3".data, "Low".data, 0, false, none⟩] := by
  have h := store_ids_stay_unique
    ⟨"aspirin".data, [⟨"US1A".data, "T1".data, "High".data, 1, true, none⟩]⟩
    ⟨"US1A".data, "Other".data, "Low".data, 0, false, none⟩
    [⟨"US2B".data, "T2".data, "Med".data, 1, true, none⟩,
     ⟨"US3C".data, "T3".data, "Low".data, 0, false, none⟩]
  exact ⟨h.1 (by decide), h.2.1 (by decide), h.2.2 (by decide) (by decide)⟩

/-- A saved record's id is stored afterwards. -/
theorem save_adds_id (f : ResultFile) (p : VerifiedPatent) :
    p.patent_id ∈ resultIds (saveVerifiedPatent f p) := by
  rw [resultIds_save]
  split_ifs with h
  · exact h
  · simp

/-- One verification step never removes an in-memory record. -/
theorem verifyStep_keeps_mem (fetch : List Char → Option (List Char))
    (acc : List VerifiedPatent × ResultFile) (p : Candidate) (x : VerifiedPatent)
    (hx : x ∈ acc.1) : x ∈ (verifyStep fetch acc p).1 := by
  unfold verifyStep
  cases h : fetch p.patent_id <;> simp [hx]

/-- The verification loop never removes an in-memory record. -/
theorem foldl_verify_keeps_mem (fetch : List Char → Option (List Char))
    (l : List Candidate) (acc : List VerifiedPatent × ResultFile)
    (x : VerifiedPatent) (hx : x ∈ acc.1) :
    x ∈ (l.foldl (verifyStep fetch) acc).1 := by
  induction l generalizing acc with
  | nil => exact hx
  | cons q rest ih => exact ih _ (verifyStep_keeps_mem fetch acc q x hx)

/-- One verification step never removes a stored id. -/
theorem verifyStep_keeps_id (fetch : List Char → Option (List Char))
    (acc : List VerifiedPatent × ResultFile) (p : Candidate) (i : List Char)
    (hi : i ∈ resultIds acc.2) : i ∈ resultIds (verifyStep fetch acc p).2 := by
  unfold verifyStep
  cases h : fetch p.patent_id
  · simpa using hi
  · rename_i actual
    show i ∈ resultIds (saveVerifiedPatent acc.2 (mkVerifiedPatent p actual))
    rw [resultIds_save]
    split_ifs with hm <;> simp [hi]

/-- The verification loop never removes a stored id. -/
theorem foldl_verify_keeps_id (fetch : List Char → Option (List Char))
    (l : List Candidate) (acc : List VerifiedPatent × ResultFile)
    (i : List Char) (hi : i ∈ resultIds acc.2) :
    i ∈ resultIds (l.foldl (verifyStep fetch) acc).2 := by
  induction l generalizing acc with
  | nil => exact hi
  | cons q rest ih => exact ih _ (verifyStep_keeps_id fetch acc q i hi)

/-- A candidate with a successful fetch ends up in the in-memory list
and its id ends up in the store, from any starting accumulator. -/
theorem foldl_verify_records (fetch : List Char → Option (List Char))
    (l : List Candidate) (acc : List VerifiedPatent × ResultFile)
    (p : Candidate) (actual : List Char)
    (hp : p ∈ l) (hf : fetch p.patent_id = some actual) :
    mkVerifiedPatent p actual ∈ (l.foldl (verifyStep fetch) acc).1 ∧
    p.patent_id ∈ resultIds (l.foldl (verifyStep fetch) acc).2 := by
  induction l generalizing acc with
  | nil => cases hp
  | cons q rest ih =>
    rcases List.mem_cons.mp hp with rfl | hp2
    · have hstep : verifyStep fetch acc p =
          (acc.1 ++ [mkVerifiedPatent p actual],
           saveVerifiedPatent acc.2 (mkVerifiedPatent p actual)) := by
        unfold verifyStep
        rw [hf]
      constructor
      · rw [List.foldl_cons]
        apply foldl_verify_keeps_mem
        rw [hstep]
        simp
      · rw [List.foldl_cons]
        apply foldl_verify_keeps_id
        rw [hstep]
        exact save_adds_id acc.2 (mkVerifiedPatent p actual)
    · rw [List.foldl_cons]
      exact ih _ hp2

/-- C2: every candidate whose title fetch succeeds yields a record with
`verified` set to (similarity ≥ threshold); a below-threshold record is
marked `verified: false` yet still enters the returned in-memory list
(and hence the `patents_verified` count, which is that list's length)
and still has its id saved to the store. -/
theorem fetched_candidate_always_recorded (fetch : List Char → Option (List Char))
    (patents : List Candidate) (file0 : ResultFile)
    (p : Candidate) (actual : List Char)
    (hp : p ∈ patents) (hf : fetch p.patent_id = some actual) :
    mkVerifiedPatent p actual ∈ (verifyPatents fetch patents file0).1 ∧
    (mkVerifiedPatent p actual).verified
      = decide (Config.SIMILARITY_THRESHOLD ≤ calculateSimilarity p.title actual) ∧
    (calculateSimilarity p.title actual < Config.SIMILARITY_THRESHOLD →
      (mkVerifiedPatent p actual).verified = false) ∧
    p.patent_id ∈ resultIds (verifyPatents fetch patents file0).2 := by
  obtain ⟨h1, h2⟩ := foldl_verify_records fetch patents ([], file0) p actual hp hf
  refine ⟨h1, rfl, fun hlt => ?_, h2⟩
  simp only [mkVerifiedPatent]
  exact decide_eq_false (not_le.mpr hlt)

/-- C9: verifying two candidates with the same id (both fetches
succeeding) yields two in-memory records with that id, while the result
file stores the id exactly once. -/
theorem duplicate_ids_kept_in_memory (fetch : List Char → Option (List Char))
    (p q : Candidate) (file0 : ResultFile) (actual : List Char)
    (hid : q.patent_id = p.patent_id)
    (hf : fetch p.patent_id = some actual)
    (hnew : p.patent_id ∉ resultIds file0) :
    (verifyPatents fetch [p, q] file0).1.map VerifiedPatent.patent_id
      = [p.patent_id, p.patent_id] ∧
    (verifyPatents fetch [p, q] file0).1.length = 2 ∧
    (resultIds (verifyPatents fetch [p, q] file0).2).count p.patent_id = 1 := by
  have hfq : fetch q.patent_id = some actual := by rw [hid]; exact hf
  have hpidp : (mkVerifiedPatent p actual).patent_id = p.patent_id := rfl
  have hpidq : (mkVerifiedPatent q actual).patent_id = q.patent_id := rfl
  have h1 : saveVerifiedPatent file0 (mkVerifiedPatent p actual) =
      { file0 with verified_patents :=
          file0.verified_patents ++ [mkVerifiedPatent p actual] } := by
    unfold saveVerifiedPatent
    rw [hpidp]
    simp [hnew]
  have hids1 : resultIds { file0 with verified_patents :=
      file0.verified_patents ++ [mkVerifiedPatent p actual] } =
      resultIds file0 ++ [p.patent_id] := by
    simp [resultIds, hpidp]
  have h2 : saveVerifiedPatent
      { file0 with verified_patents :=
          file0.verified_patents ++ [mkVerifiedPatent p actual] }
      (mkVerifiedPatent q actual) =
      { file0 with verified_patents :=
          file0.verified_patents ++ [mkVerifiedPatent p actual] } := by
    unfold saveVerifiedPatent
    rw [hpidq, hid, hids1]
    simp
  have hrun : verifyPatents fetch [p, q] file0 =
      ([mkVerifiedPatent p actual, mkVerifiedPatent q actual],
       { file0 with verified_patents :=
           file0.verified_patents ++ [mkVerifiedPatent p actual] }) := by
    show verifyStep fetch (verifyStep fetch ([], file0) p) q = _
    have hstep1 : verifyStep fetch ([], file0) p =
        ([mkVerifiedPatent p actual],
         saveVerifiedPatent file0 (mkVerifiedPatent p actual)) := by
      unfold verifyStep
      rw [hf]
      rfl
    have hstep2 : verifyStep fetch
        ([mkVerifiedPatent p actual],
         { file0 with verified_patents :=
             file0.verified_patents ++ [mkVerifiedPatent p actual] }) q =
        ([mkVerifiedPatent p actual, mkVerifiedPatent q actual],
         saveVerifiedPatent
           { file0 with verified_patents :=
               file0.verified_patents ++ [mkVerifiedPatent p actual] }
           (mkVerifiedPatent q actual)) := by
      unfold verifyStep
      rw [hfq]
      rfl
    rw [hstep1, h1, hstep2, h2]
  refine ⟨?_, ?_, ?_⟩
  · rw [hrun]
    simp [hpidp, hpidq, hid]
  · rw [hrun]
    rfl
  · rw [hrun]
    rw [show (([mkVerifiedPatent p actual, mkVerifiedPatent q actual],
        { file0 with verified_patents :=
            file0.verified_patents ++ [mkVerifiedPatent p actual] }) :
        List VerifiedPatent × ResultFile).2 =
        { file0 with verified_patents :=
            file0.verified_patents ++ [mkVerifiedPatent p actual] } from rfl]
    rw [hids1, List.count_append]
    simp [List.count_eq_zero.mpr hnew]

/-- Witness for `fetched_candidate_always_recorded`: a fetch whose
actual title shares no character with the claimed one (similarity 0,
below the 0.8 threshold) is still listed and saved, `verified: false`. -/
theorem fetched_candidate_always_recorded_app :
    mkVerifiedPatent ⟨"US1A".data, "abcd".data, "High".data⟩ "wxyz".data ∈
      (verifyPatents (fun _ => some "wxyz".data)
        [⟨"US1A".data, "abcd".data, "High".data⟩] ⟨"aspirin".data, []⟩).1 ∧
    (mkVerifiedPatent ⟨"US1A".data, "abcd".data, "High".data⟩ "wxyz".data).verified
      = decide (Config.SIMILARITY_THRESHOLD ≤
          calculateSimilarity "abcd".data "wxyz".data) ∧
    (calculateSimilarity "abcd".data "wxyz".data < Config.SIMILARITY_THRESHOLD →
      (mkVerifiedPatent ⟨"US1A".data, "abcd".data, "High".data⟩ "wxyz".data).verified
        = false) ∧
    "US1A".data ∈ resultIds (verifyPatents (fun _ => some "wxyz".data)
        [⟨"US1A".data, "abcd".data, "High".data⟩] ⟨"aspirin".data, []⟩).2 :=
  fetched_candidate_always_recorded (fun _ => some "wxyz".data)
    [⟨"US1A".data, "abcd".data, "High".data⟩] ⟨"aspirin".data, []⟩
    ⟨"US1A".data, "abcd".data, "High".data⟩ "wxyz".data (by decide) rfl

/-- Witness for `duplicate_ids_kept_in_memory` with two candidates
carrying the same id into an empty result file. -/
theorem duplicate_ids_kept_in_memory_app :
    (verifyPatents (fun _ => some "T".data)
        [⟨"US1A".data, "T".data, "High".data⟩, ⟨"US1A".data, "T2".data, "Low".data⟩]
        ⟨"aspirin".data, []⟩).1.map VerifiedPatent.patent_id
      = ["US1A".data, "US1A".data] ∧
    (verifyPatents (fun _ => some "T".data)
        [⟨"US1A".data, "T".data, "High".data⟩, ⟨"US1A".data, "T2".data, "Low".data⟩]
        ⟨"aspirin".data, []⟩).1.length = 2 ∧
    (resultIds (verifyPatents (fun _ => some "T".data)
        [⟨"US1A".data, "T".data, "High".data⟩, ⟨"US1A".data, "T2".data, "Low".data⟩]
        ⟨"aspirin".data, []⟩).2).count "US1A".data = 1 :=
  duplicate_ids_kept_in_memory (fun _ => some "T".data)
    ⟨"US1A".data, "T".data, "High".data⟩ ⟨"US1A".data, "T2".data, "Low".data⟩
    ⟨"aspirin".data, []⟩ "T".data rfl rfl (by decide)

/-- C5 (amended): swapping the arguments changes the similarity score
only through the matcher's total matched length: whenever that total is
the same in both argument orders the score is symmetric; symmetry does
not hold for every pair of strings. -/
theorem similarity_symm_of_matchTotal_symm (a b : List Char)
    (h : matchTotal (normTitle a) (normTitle b)
      = matchTotal (normTitle b) (normTitle a)) :
    calculateSimilarity a b = calculateSimilarity b a := by
  unfold calculateSimilarity
  rw [h, Nat.add_comm]

/-- Witness for `similarity_symm_of_matchTotal_symm`: case-insensitive
and whitespace-insensitive comparison of "Foo" variants is symmetric. -/
theorem similarity_symm_of_matchTotal_symm_app :
    calculateSimilarity " Foo ".data "foo".data
      = calculateSimilarity "foo".data " Foo ".data :=
  similarity_symm_of_matchTotal_symm " Foo ".data "foo".data (by decide)

/-- Counterexample to C5 as stated: the similarity scorer is not
symmetric; on "tide" and "diet" the two argument orders score 1/4 and
1/2 (the tie-breaking of the first longest matching block differs). -/
theorem similarity_swap_differs :
    calculateSimilarity "tide".data "diet".data
      ≠ calculateSimilarity "diet".data "tide".data := by
  have h1 : matchTotal (normTitle "tide".data) (normTitle "diet".data) = 1 := by decide
  have h2 : matchTotal (normTitle "diet".data) (normTitle "tide".data) = 2 := by decide
  have hl1 : (normTitle "tide".data).length = 4 := by decide
  have hl2 : (normTitle "diet".data).length = 4 := by decide
  unfold calculateSimilarity
  rw [h1, h2, hl1, hl2]
  norm_num [matchScore]

end PatentPipeline
